import Mathlib

/-!
Shallow embedding of the multicopter position controller core
(`src/modules/mc_pos_control/mc_pos_control_main.cpp`).

Machine floats are modelled as `Option ℚ`: `some q` is a finite value and `none` is a
non-finite value (NaN).  Arithmetic propagates `none` and every ordered comparison
involving `none` is `false`, matching IEEE semantics of NaN.  Rounding is idealised:
finite float arithmetic is embedded as exact rational arithmetic.

Components of the repository that are not part of the extracted source file
(`systemlib::Hysteresis`, the `FlightTasks` container, the `PositionControl` PID core,
`ControlMath`) are modelled from the specification; each such definition carries a doc
comment saying so.  Landing-gear propagation of the attitude setpoint is not modelled:
no claim concerns it and it feeds nothing else in the controller.
-/

namespace MCPos

/-- An embedded `float`: `some q` is finite, `none` is non-finite (NaN). -/
abbrev F32 := Option ℚ

/-- `PX4_ISFINITE`. -/
def isFin (x : F32) : Bool := x.isSome

/-- Float addition; NaN propagates. -/
def fadd : F32 → F32 → F32
  | some a, some b => some (a + b)
  | _, _ => none

/-- Float subtraction; NaN propagates. -/
def fsub : F32 → F32 → F32
  | some a, some b => some (a - b)
  | _, _ => none

/-- Float multiplication; NaN propagates. -/
def fmul : F32 → F32 → F32
  | some a, some b => some (a * b)
  | _, _ => none

/-- Float division; NaN propagates.  (Division by a finite zero is outside the
situations exercised by the claims; `ℚ` division by zero yields `0`.) -/
def fdiv : F32 → F32 → F32
  | some a, some b => some (a / b)
  | _, _ => none

/-- Float negation; NaN propagates. -/
def fneg : F32 → F32
  | some a => some (-a)
  | none => none

/-- `fabsf`; NaN propagates. -/
def fabsF : F32 → F32
  | some a => some |a|
  | none => none

/-- Float `<`; any comparison with NaN is false. -/
def flt : F32 → F32 → Bool
  | some a, some b => decide (a < b)
  | _, _ => false

/-- Float `<=`; any comparison with NaN is false. -/
def fle : F32 → F32 → Bool
  | some a, some b => decide (a ≤ b)
  | _, _ => false

/-- C++ `math::min` on floats: `(a < b) ? a : b`. -/
def fminC (a b : F32) : F32 := if flt a b then a else b

/-- C++ `math::max` on floats: `(a > b) ? a : b`. -/
def fmaxC (a b : F32) : F32 := if flt b a then a else b

/-- A 3-vector of embedded floats (`matrix::Vector3f`, `float[3]`). -/
structure V3 where
  x : F32
  y : F32
  z : F32
deriving DecidableEq

/-- `vehicle_local_position_setpoint_s`, restricted to the fields the controller reads
or writes. -/
structure LocalPosSp where
  x : F32
  y : F32
  z : F32
  vx : F32
  vy : F32
  vz : F32
  yaw : F32
  yawspeed : F32
  thrust : V3
deriving DecidableEq

/-- `vehicle_constraints_s`, restricted to the fields the controller reads or writes
(landing gear is not modelled). -/
structure Constraints where
  speed_up : F32
  speed_down : F32
  min_distance_to_ground : F32
  tilt_max : F32
deriving DecidableEq

/-- `vehicle_local_position_s`, restricted to the fields `check_vehicle_states` and
`limit_altitude` read. -/
structure LocalPos where
  timestamp : ℕ
  x : F32
  y : F32
  z : F32
  vx : F32
  vy : F32
  vz : F32
  z_deriv : F32
  yaw : F32
  xy_valid : Bool
  z_valid : Bool
  v_xy_valid : Bool
  v_z_valid : Bool
deriving DecidableEq

/-- `PositionControlStates` (`_states`). -/
structure PCStates where
  pos_x : F32
  pos_y : F32
  pos_z : F32
  vel_x : F32
  vel_y : F32
  vel_z : F32
  acc_x : F32
  acc_y : F32
  acc_z : F32
  yaw : F32
deriving DecidableEq

/-- `vehicle_control_mode_s`, restricted to the flags the controller reads. -/
structure ControlMode where
  flag_armed : Bool
  flag_control_auto_enabled : Bool
  flag_control_offboard_enabled : Bool
  flag_control_position_enabled : Bool
  flag_control_velocity_enabled : Bool
  flag_control_acceleration_enabled : Bool
deriving DecidableEq

/-- `vehicle_land_detected_s`, restricted to the fields the controller reads. -/
structure LandDetected where
  landed : Bool
  maybe_landed : Bool
  ground_contact : Bool
  alt_max : F32
deriving DecidableEq

/-- `home_position_s`, restricted to the fields the controller reads. -/
structure HomePosition where
  z : F32
  valid_alt : Bool
deriving DecidableEq

/-- The parameter cache (`DEFINE_PARAMETERS`), after the clamping performed by
`parameters_update`.  Parameters are finite. -/
structure Params where
  takeoff_ramp_time : ℚ
  vel_max_up : ℚ
  vel_max_down : ℚ
  land_speed : ℚ
  tko_speed : ℚ
  land_alt2 : ℚ
  pos_mode : Int
deriving DecidableEq

/-- Modelled from the spec: the integral state of the external `PositionControl` PID
core (not under `src/`), exposed only through `reset_integral_xy` and
`reset_integral_z`, which zero the respective integrators. -/
structure CoreIntegrals where
  int_x : ℚ
  int_y : ℚ
  int_z : ℚ
deriving DecidableEq

/-- Modelled from the spec: `PositionControl::resetIntegralXY` zeroes the XY integral. -/
def resetIntegralXY (c : CoreIntegrals) : CoreIntegrals :=
  { c with int_x := 0, int_y := 0 }

/-- Modelled from the spec: `PositionControl::resetIntegralZ` zeroes the Z integral. -/
def resetIntegralZ (c : CoreIntegrals) : CoreIntegrals :=
  { c with int_z := 0 }

/-- Modelled from the spec: `systemlib::Hysteresis` (not under `src/`).  It debounces a
boolean: the state flips to the held input only after the input has held the
opposite-of-current value continuously for the dwell configured for the current state.
Only the `false → true` direction is configured (dwell 2,500,000 µs); the unconfigured
`true → false` direction has dwell 0 and flips immediately. -/
structure Hysteresis where
  state : Bool
  requested : Bool
  reqSince : ℕ
deriving DecidableEq

/-- Dwell (µs) required to leave `fromState`: 2,500,000 µs for `false → true`,
immediate for `true → false`. -/
def hystDwellFrom (fromState : Bool) : ℕ :=
  if fromState then 0 else 2500000

/-- Modelled from the spec: `Hysteresis::set_state_and_update` records the requested
input (restarting the hold timer when the input changes) and then flips the state once
the request has been held for the dwell of the current state. -/
def Hysteresis.set_state_and_update (h : Hysteresis) (input : Bool) (now : ℕ) :
    Hysteresis :=
  let h1 := if input = h.requested then h else { h with requested := input, reqSince := now }
  if h1.requested ≠ h1.state ∧ hystDwellFrom h1.state ≤ now - h1.reqSince then
    { h1 with state := h1.requested }
  else h1

/-- `FlightTaskIndex` of the flight-task container. -/
inductive FlightTaskIndex
  | None
  | Offboard
  | AutoFollowMe
  | AutoLine
  | Position
  | PositionSmooth
  | Sport
  | Altitude
  | Stabilized
deriving DecidableEq

/-- Navigation states read from `vehicle_status.nav_state` (the ones the selector
distinguishes, plus a catch-all). -/
inductive NavState
  | manual
  | altctl
  | posctl
  | stab
  | offboard
  | autoFollowTarget
  | other
deriving DecidableEq

/-- Modelled from the spec: `FlightTasks::switchTask` (not under `src/`).  Switching to
`None` deactivates and always succeeds; switching to any other task activates it when
the environment oracle `ok` reports success, and otherwise leaves no task active and
returns failure. -/
def switchTask (ok : FlightTaskIndex → Bool) (idx : FlightTaskIndex) :
    FlightTaskIndex × Bool :=
  if idx = FlightTaskIndex.None then (FlightTaskIndex.None, true)
  else if ok idx then (idx, true)
  else (FlightTaskIndex.None, false)

/-- The manual-position task selected by `MPC_POS_MODE`
(`0 → Position`, `1 → PositionSmooth`, `2 → Sport`, default `Position`). -/
def posModeTask : Int → FlightTaskIndex
  | 0 => FlightTaskIndex.Position
  | 1 => FlightTaskIndex.PositionSmooth
  | 2 => FlightTaskIndex.Sport
  | _ => FlightTaskIndex.Position

/-- `MulticopterPositionControl::start_flight_task`: the activation cascade.  Returns
the task that is active afterwards (`None` when every cascade step failed).  The
environment oracle `ok` stands for the black-box activation results. -/
def start_flight_task (ok : FlightTaskIndex → Bool) (nav : NavState)
    (auto_enabled : Bool) (pos_mode : Int) (cur0 : FlightTaskIndex) : FlightTaskIndex :=
  let s1 : FlightTaskIndex × Bool :=
    if nav = NavState.offboard then
      let r := switchTask ok FlightTaskIndex.Offboard
      (r.1, !r.2)
    else (cur0, false)
  let s2 : FlightTaskIndex × Bool :=
    if nav = NavState.autoFollowTarget then
      let r := switchTask ok FlightTaskIndex.AutoFollowMe
      (r.1, s1.2 || !r.2)
    else if auto_enabled then
      let r := switchTask ok FlightTaskIndex.AutoLine
      (r.1, s1.2 || !r.2)
    else s1
  let s3 : FlightTaskIndex × Bool :=
    if nav = NavState.posctl || s2.2 then
      let r := switchTask ok (posModeTask pos_mode)
      (r.1, !r.2)
    else s2
  let s4 : FlightTaskIndex × Bool :=
    if nav = NavState.altctl || s3.2 then
      let r := switchTask ok FlightTaskIndex.Altitude
      (r.1, !r.2)
    else s3
  let s5 : FlightTaskIndex × Bool :=
    if nav = NavState.manual || nav = NavState.stab || s4.2 then
      let r := switchTask ok FlightTaskIndex.Stabilized
      (r.1, !r.2)
    else s4
  if s5.2 then FlightTaskIndex.None else s5.1

/-- `MulticopterPositionControl::limit_altitude`, translated line by line.  The first
three arguments are `_vehicle_land_detected.alt_max`, `_home_pos.valid_alt` and
`_local_pos.v_z_valid`; `pos_z` is `_states.position(2)`, `home_z` is `_home_pos.z`. -/
def limit_altitude (alt_max : F32) (valid_alt v_z_valid : Bool) (pos_z home_z : F32)
    (dt : ℚ) (sp : LocalPosSp) : LocalPosSp :=
  if flt alt_max (some 0) || !valid_alt || !v_z_valid then sp
  else
    let altitude_above_home := fneg (fsub pos_z home_z)
    if flt alt_max altitude_above_home then
      { sp with z := fadd (fneg alt_max) home_z, vz := some 0 }
    else if fle sp.vz (some 0) then
      let delta_p := fsub alt_max altitude_above_home
      if flt delta_p (fmul (fabsF sp.vz) (some dt)) then
        { sp with z := fadd (fneg alt_max) home_z, vz := some 0 }
      else sp
    else sp

/-- `FLT_EPSILON`. -/
def fltEps : ℚ := 1 / 8388608

/-- `MulticopterPositionControl::check_vehicle_states`, translated line by line.  The
external `BlockDerivative` filters (not under `src/`) are passed as opaque output
functions `derivX`, `derivY`, `derivZ`; their internal filter state is not observable
from the controller.  Note the source computes a blended z velocity and then
immediately overwrites it with the raw `vz` (the shadowed `vz_state` below). -/
def check_vehicle_states (land_speed : ℚ) (lp : LocalPos) (vel_sp_z : F32)
    (derivX derivY derivZ : F32 → F32) (s : PCStates) : PCStates :=
  if lp.timestamp = 0 then s
  else
    let pxy : F32 × F32 :=
      if isFin lp.x && isFin lp.y && lp.xy_valid then (lp.x, lp.y) else (none, none)
    let pz : F32 := if isFin lp.z && lp.z_valid then lp.z else none
    let vxy : F32 × F32 × F32 × F32 :=
      if isFin lp.vx && isFin lp.vy && lp.v_xy_valid then
        (lp.vx, lp.vy, derivX (fneg lp.vx), derivY (fneg lp.vy))
      else (none, none, none, none)
    let vzacc : F32 × F32 :=
      if isFin lp.vz then
        let vz_state :=
          if isFin vel_sp_z && flt (some fltEps) (fabsF vel_sp_z) && isFin lp.z_deriv then
            let weighting := fminC (fdiv (fabsF vel_sp_z) (some land_speed)) (some 1)
            fadd (fmul lp.z_deriv weighting) (fmul lp.vz (fsub (some 1) weighting))
          else s.vel_z
        let vz_state := lp.vz
        (vz_state, derivZ (fneg vz_state))
      else (none, none)
    let yaw := if isFin lp.yaw then lp.yaw else s.yaw
    { pos_x := pxy.1, pos_y := pxy.2, pos_z := pz,
      vel_x := vxy.1, vel_y := vxy.2.1, vel_z := vzacc.1,
      acc_x := vxy.2.2.1, acc_y := vxy.2.2.2, acc_z := vzacc.2, yaw := yaw }

/-- `MulticopterPositionControl::check_for_smooth_takeoff`, translated line by line.
Returns the new `(_in_smooth_takeoff, _takeoff_speed)` pair. -/
def check_for_smooth_takeoff (tko_speed : ℚ) (landed in_smooth_takeoff : Bool)
    (pos_z z_sp vz_sp min_distance_to_ground takeoff_speed : F32) : Bool × F32 :=
  if landed && !in_smooth_takeoff then
    let min_altitude :=
      if isFin min_distance_to_ground then fadd min_distance_to_ground (some (1/20))
      else some (1/5)
    if (isFin z_sp && flt z_sp (fsub pos_z min_altitude)) ||
       (isFin vz_sp && flt vz_sp (some (min (-tko_speed) (-(3/5))))) then
      (true, some (-(1/2)))
    else (false, takeoff_speed)
  else (in_smooth_takeoff, takeoff_speed)

/-- The desired takeoff speed of `update_smooth_takeoff`: the takeoff-speed parameter
when the position setpoint is finite, otherwise the negated velocity setpoint. -/
def desiredTkoSpeed (tko_speed : ℚ) (z_sp vz_sp : F32) : F32 :=
  if isFin z_sp then some tko_speed else fneg vz_sp

/-- `MulticopterPositionControl::update_smooth_takeoff`, translated line by line.
Returns the new `(_in_smooth_takeoff, _takeoff_speed)` pair. -/
def update_smooth_takeoff (tko_speed takeoff_ramp_time land_alt2 dt : ℚ)
    (in_smooth_takeoff : Bool) (takeoff_speed pos_z z_sp vz_sp : F32) : Bool × F32 :=
  if in_smooth_takeoff then
    let desired := desiredTkoSpeed tko_speed z_sp vz_sp
    let t1 := fadd takeoff_speed (fdiv (fmul desired (some dt)) (some takeoff_ramp_time))
    let t2 := fminC t1 desired
    let ists :=
      if isFin z_sp then
        flt (fmaxC z_sp (some (-land_alt2))) (fsub pos_z (some (1/5)))
      else
        flt t2 (fneg vz_sp)
    (ists, t2)
  else (false, takeoff_speed)

/-- `MulticopterPositionControl::limit_thrust_during_landing`, translated line by line.
The PID core's integrals appear explicitly so that the resets are observable. -/
def limit_thrust_during_landing (ground_contact maybe_landed : Bool) (thr : V3)
    (core : CoreIntegrals) : V3 × CoreIntegrals :=
  let r1 : V3 × CoreIntegrals :=
    if ground_contact then (⟨some 0, some 0, thr.z⟩, resetIntegralXY core)
    else (thr, core)
  if maybe_landed then (⟨some 0, some 0, some 0⟩, resetIntegralZ (resetIntegralXY r1.2))
  else r1

/-- The failsafe setpoint synthesized by `task_main` when `_flight_tasks.update()`
fails.  The stack variable `vehicle_local_position_setpoint_s setpoint;` is
default-initialized, so the fields the failsafe block never writes (`yaw`, `yawspeed`)
keep their indeterminate contents; `uninit` stands for those contents. -/
def failsafe_setpoint (land_speed : ℚ) (vel_z_state : F32) (uninit : LocalPosSp) :
    LocalPosSp :=
  let sp := { uninit with x := none, y := none, z := none,
                          vx := none, vy := none, vz := none,
                          thrust := (⟨none, none, none⟩ : V3) }
  if isFin vel_z_state then
    { sp with vz := some land_speed, thrust := ⟨some 0, some 0, sp.thrust.z⟩ }
  else sp

/-- The guard of `publish_attitude`: arm hysteresis true and not (offboard enabled
while position, velocity and acceleration control are all disabled). -/
def publishGuard (cm : ControlMode) (hystState : Bool) : Bool :=
  hystState &&
    !(cm.flag_control_offboard_enabled &&
      !(cm.flag_control_position_enabled || cm.flag_control_velocity_enabled ||
        cm.flag_control_acceleration_enabled))

/-- The controller state that persists across ticks. -/
structure CtlState where
  in_smooth_takeoff : Bool
  takeoff_speed : F32
  arm_hyst : Hysteresis
  states : PCStates
  cur : FlightTaskIndex
  core : CoreIntegrals
  attIdSet : Bool
  attAdvertised : Bool

/-- The per-tick inputs of the loop body: the post-poll topic values, the elapsed
time, and the environment oracles standing for the external flight task and PID core. -/
structure TickInput where
  nav : NavState
  statusUpdated : Bool
  cm : ControlMode
  land : LandDetected
  lp : LocalPos
  home : HomePosition
  dt : ℚ
  now : ℕ
  switchOk : FlightTaskIndex → Bool
  taskUpdateOk : Bool
  taskSetpoint : LocalPosSp
  taskConstraints : Constraints
  uninitSp : LocalPosSp
  pidThrust : V3
  derivX : F32 → F32
  derivY : F32 → F32
  derivZ : F32 → F32

/-- The observable outcome of one tick: the new controller state and the
intermediate values the claims talk about. -/
structure TickResult where
  st : CtlState
  taskActive : Bool
  taskSp : LocalPosSp
  spAfterTakeoff : LocalPosSp
  consAfterTakeoff : Constraints
  pidInvoked : Bool
  pidSetpoint : LocalPosSp
  hystState : Bool
  published : Bool

/-- The idle arm of the loop body (`task_main`, no flight task active): emit the idle
attitude and run `publish_attitude`. -/
def tickIdle (s : CtlState) (i : TickInput) (attIdSet : Bool) (cur : FlightTaskIndex)
    (hyst : Hysteresis) : TickResult :=
  let guard := publishGuard i.cm hyst.state
  { st := { s with cur := cur, arm_hyst := hyst, attIdSet := attIdSet,
                   attAdvertised := s.attAdvertised || (guard && attIdSet) },
    taskActive := false,
    taskSp := i.taskSetpoint,
    spAfterTakeoff := i.taskSetpoint,
    consAfterTakeoff := i.taskConstraints,
    pidInvoked := false,
    pidSetpoint := i.taskSetpoint,
    hystState := hyst.state,
    published := guard && (s.attAdvertised || attIdSet) }

/-- The active arm of the loop body (`task_main`, a flight task is active): task
update or failsafe, state validation, arm hysteresis, smooth takeoff, landed idle
override, altitude fence, PID invocation, landing thrust shaping, publication. -/
def tickActive (p : Params) (s : CtlState) (i : TickInput) (attIdSet : Bool)
    (cur : FlightTaskIndex) (hyst0 : Hysteresis) : TickResult :=
  let sp0 :=
    if i.taskUpdateOk then i.taskSetpoint
    else failsafe_setpoint p.land_speed s.states.vel_z i.uninitSp
  let cons0 := i.taskConstraints
  let states := check_vehicle_states p.land_speed i.lp sp0.vz i.derivX i.derivY i.derivZ s.states
  let hyst := hyst0.set_state_and_update i.cm.flag_armed i.now
  let gate := hyst.state && isFin states.pos_z && isFin states.vel_z
  let tk : Bool × F32 :=
    if gate then
      let c := check_for_smooth_takeoff p.tko_speed i.land.landed s.in_smooth_takeoff
        states.pos_z sp0.z sp0.vz cons0.min_distance_to_ground s.takeoff_speed
      update_smooth_takeoff p.tko_speed p.takeoff_ramp_time p.land_alt2 i.dt
        c.1 c.2 states.pos_z sp0.z sp0.vz
    else (s.in_smooth_takeoff, s.takeoff_speed)
  let ov : LocalPosSp × Constraints :=
    if gate && tk.1 then
      ({ sp0 with yaw := none, yawspeed := none, x := none, y := none,
                  vx := some 0, vy := some 0 },
       { cons0 with speed_up := tk.2 })
    else (sp0, cons0)
  let sp2 :=
    if i.land.landed && !tk.1 && !isFin ov.1.thrust.z then
      { ov.1 with thrust := (⟨some 0, some 0, some 0⟩ : V3),
                  x := none, y := none, z := none,
                  vx := none, vy := none, vz := none,
                  yawspeed := none, yaw := states.yaw }
    else ov.1
  let sp3 :=
    if isFin states.pos_z then
      limit_altitude i.land.alt_max i.home.valid_alt i.lp.v_z_valid states.pos_z
        i.home.z i.dt sp2
    else sp2
  let th : V3 × CoreIntegrals :=
    if !tk.1 && !isFin sp3.thrust.z then
      limit_thrust_during_landing i.land.ground_contact i.land.maybe_landed
        i.pidThrust s.core
    else (i.pidThrust, s.core)
  let guard := publishGuard i.cm hyst.state
  { st := { in_smooth_takeoff := tk.1, takeoff_speed := tk.2, arm_hyst := hyst,
            states := states, cur := cur, core := th.2, attIdSet := attIdSet,
            attAdvertised := s.attAdvertised || (guard && attIdSet) },
    taskActive := true,
    taskSp := sp0,
    spAfterTakeoff := ov.1,
    consAfterTakeoff := ov.2,
    pidInvoked := true,
    pidSetpoint := sp3,
    hystState := hyst.state,
    published := guard && (s.attAdvertised || attIdSet) }

/-- The branch of the loop body on `_flight_tasks.isAnyTaskActive()` (modelled from
the spec as: some task other than `None` is the current one). -/
def tickBranch (p : Params) (s : CtlState) (i : TickInput) (attIdSet : Bool)
    (cur : FlightTaskIndex) (hyst0 : Hysteresis) : TickResult :=
  if cur = FlightTaskIndex.None then tickIdle s i attIdSet cur hyst0
  else tickActive p s i attIdSet cur hyst0

/-- One iteration of the `task_main` loop body after the poll: parameter/dt handling
is summarised by the inputs, then the disarm/selector step, then the active or idle
arm, then `publish_attitude`. -/
def tick (p : Params) (s : CtlState) (i : TickInput) : TickResult :=
  let attIdSet := s.attIdSet || i.statusUpdated
  let afterArm : FlightTaskIndex × Hysteresis :=
    if i.cm.flag_armed then
      (start_flight_task i.switchOk i.nav i.cm.flag_control_auto_enabled p.pos_mode s.cur,
       s.arm_hyst)
    else
      (FlightTaskIndex.None, s.arm_hyst.set_state_and_update false i.now)
  tickBranch p s i attIdSet afterArm.1 afterArm.2

/-! ### Concrete sample values, used by witnesses and counterexamples -/

/-- An all-NaN thrust vector. -/
def v3None : V3 := ⟨none, none, none⟩

/-- An all-NaN setpoint. -/
def spNone : LocalPosSp := ⟨none, none, none, none, none, none, none, none, v3None⟩

/-- Unset constraints. -/
def consNone : Constraints := ⟨none, none, none, none⟩

/-- A never-received local-position sample (timestamp 0). -/
def lpNone : LocalPos :=
  ⟨0, none, none, none, none, none, none, none, none, false, false, false, false⟩

/-- All-invalid controller states. -/
def statesNone : PCStates := ⟨none, none, none, none, none, none, none, none, none, none⟩

/-- Control mode: disarmed, every control flag off. -/
def cmDisarmed : ControlMode := ⟨false, false, false, false, false, false⟩

/-- Control mode: armed, every other flag off. -/
def cmArmedOnly : ControlMode := ⟨true, false, false, false, false, false⟩

/-- Land detector reporting in-air, no fence. -/
def landNone : LandDetected := ⟨false, false, false, none⟩

/-- An invalid home position. -/
def homeNone : HomePosition := ⟨none, false⟩

/-- A representative parameter cache: ramp time 3 s, `vel_max_up` 3, `vel_max_down` 1,
`land_speed` 0.5, `tko_speed` 1.5, `land_alt2` 5, `pos_mode` 0. -/
def pDefault : Params := ⟨3, 3, 1, 1/2, 3/2, 5, 0⟩

/-- A hysteresis whose debounced state is `true`. -/
def hystT : Hysteresis := ⟨true, true, 0⟩

/-- A hysteresis whose debounced state is `false`. -/
def hystF : Hysteresis := ⟨false, false, 0⟩

/-- A quiescent controller state. -/
def stateIdle : CtlState :=
  ⟨false, some (-1), hystF, statesNone, FlightTaskIndex.None, ⟨0, 0, 0⟩, false, false⟩

/-- A baseline tick input: armed, manual navigation, every activation succeeding,
task update succeeding, no topic data received, zero dt. -/
def inputBase : TickInput :=
  { nav := NavState.manual, statusUpdated := false, cm := cmArmedOnly, land := landNone,
    lp := lpNone, home := homeNone, dt := 0, now := 0,
    switchOk := fun _ => true, taskUpdateOk := true,
    taskSetpoint := spNone, taskConstraints := consNone, uninitSp := spNone,
    pidThrust := v3None,
    derivX := fun _ => none, derivY := fun _ => none, derivZ := fun _ => none }

/-- The S2 scenario setpoint: commanded climb `vz = -2`, everything else free. -/
def spS2 : LocalPosSp := { spNone with vz := some (-2) }

/-- State for the C2 witness: hysteresis already true and a task active. -/
def sC2 : CtlState := { stateIdle with arm_hyst := hystT, cur := FlightTaskIndex.Stabilized }

/-- Input for the C2 witness: disarmed. -/
def iC2 : TickInput := { inputBase with cm := cmDisarmed }

/-- State for the C7 evaluation: vertical velocity state is known-valid. -/
def sC7 : CtlState := { stateIdle with states := { statesNone with vel_z := some 0 } }

/-- Input for the C7 evaluation: the task update fails and the indeterminate stack
contents of the setpoint variable hold finite yaw values. -/
def iC7 : TickInput :=
  { inputBase with taskUpdateOk := false,
                   uninitSp := { spNone with yaw := some 5, yawspeed := some 7 } }

/-- State for the C8 counterexample: debounced armed state true, but no
vehicle-status message was ever received, so the attitude-setpoint topic id is unset
and nothing was ever advertised. -/
def sC8 : CtlState := { stateIdle with arm_hyst := hystT }

/-- State for the C10 witness: mid smooth takeoff, arm hysteresis still debouncing. -/
def sC10 : CtlState :=
  { stateIdle with in_smooth_takeoff := true, takeoff_speed := some (-(1/2)),
                   cur := FlightTaskIndex.Stabilized }

/-- Local position for the C9 counterexample: raw `vz` finite but timestamp 0. -/
def lpC9 : LocalPos := { lpNone with vz := some 2 }

/-- Previous states for the C9 counterexample. -/
def statesC9 : PCStates := { statesNone with vel_z := some 1 }

/-- Local position for the C9 witness: received sample with finite `vz` and a
finite position derivative. -/
def lpC9w : LocalPos := { lpNone with timestamp := 1, vz := some 2, z_deriv := some 9 }

/-! ### Helper lemmas -/

/-- Requesting `false` flips the hysteresis state to `false` immediately: the
`true → false` direction is unconfigured, hence has dwell 0. -/
theorem hyst_reset_state (h : Hysteresis) (now : ℕ) :
    (h.set_state_and_update false now).state = false := by
  unfold Hysteresis.set_state_and_update
  cases hs : h.state <;> cases hr : h.requested <;>
    simp [hystDwellFrom, hs, hr]

/-! ### Claims -/

/-- Claim C3: whenever the altitude fence runs (`alt_max ≥ 0`, home altitude valid,
vz state valid, `position.z` state finite), if the altitude above home exceeds
`alt_max`, or the setpoint commands a climb (`vz ≤ 0`) whose one-tick travel
`|vz|·dt` exceeds `alt_max − altitude_above_home`, then afterwards
`setpoint.z = −alt_max + home.z` and `setpoint.vz = 0`. -/
theorem claim_c3_altitude_fence (alt_max home_z pos_z : F32) (valid_alt v_z_valid : Bool)
    (dt : ℚ) (sp : LocalPosSp)
    (hmax : fle (some 0) alt_max = true)
    (hva : valid_alt = true) (hvzv : v_z_valid = true)
    (hpz : isFin pos_z = true)
    (htrig : flt alt_max (fneg (fsub pos_z home_z)) = true ∨
      (fle sp.vz (some 0) = true ∧
       flt (fsub alt_max (fneg (fsub pos_z home_z))) (fmul (fabsF sp.vz) (some dt)) = true)) :
    (limit_altitude alt_max valid_alt v_z_valid pos_z home_z dt sp).z
        = fadd (fneg alt_max) home_z ∧
    (limit_altitude alt_max valid_alt v_z_valid pos_z home_z dt sp).vz = some 0 := by
  subst hva hvzv
  obtain ⟨a, ha⟩ : ∃ a, alt_max = some a := by
    cases alt_max
    · simp [fle] at hmax
    · exact ⟨_, rfl⟩
  subst ha
  have h0a : (0 : ℚ) ≤ a := by simpa [fle] using hmax
  have hguard : flt (some a) (some 0) = false := by
    simp only [flt, decide_eq_false_iff_not, not_lt]
    exact h0a
  rcases htrig with h1 | ⟨h2, h3⟩
  · simp [limit_altitude, hguard, h1]
  · by_cases h1 : flt (some a) (fneg (fsub pos_z home_z)) = true
    · simp [limit_altitude, hguard, h1]
    · simp [limit_altitude, hguard, h1, h2, h3]

/-- Witness for C3 at the S2 scenario: `alt_max = 10`, `home.z = 0`,
`position.z = −9.9`, `setpoint.vz = −2`, `dt = 0.1`; the fence clamps to
`setpoint.z = −10`, `setpoint.vz = 0`. -/
theorem claim_c3_witness :
    (fle (some 0) (some (10 : ℚ)) = true) ∧
    (isFin (some (-(99/10) : ℚ)) = true) ∧
    (fle spS2.vz (some 0) = true ∧
      flt (fsub (some 10) (fneg (fsub (some (-(99/10))) (some 0))))
          (fmul (fabsF spS2.vz) (some (1/10))) = true) ∧
    ((limit_altitude (some 10) true true (some (-(99/10))) (some 0) (1/10) spS2).z
        = some (-10) ∧
     (limit_altitude (some 10) true true (some (-(99/10))) (some 0) (1/10) spS2).vz
        = some 0) := by
  refine ⟨by norm_num [fle], rfl, ⟨by norm_num [spS2, spNone, fle],
    by norm_num [spS2, spNone, flt, fsub, fneg, fabsF, fmul]⟩, ?_⟩
  have h := claim_c3_altitude_fence (some 10) (some 0) (some (-(99/10))) true true (1/10)
    spS2 (by norm_num [fle]) rfl rfl rfl
    (Or.inr ⟨by norm_num [spS2, spNone, fle],
      by norm_num [spS2, spNone, flt, fsub, fneg, fabsF, fmul]⟩)
  refine ⟨?_, h.2⟩
  rw [h.1]
  norm_num [fadd, fneg]

/-- Counterexample to C4 as stated: with `ground_contact` and `maybe_landed` both set
and the PID thrust `(0.3, −0.1, 0.6)`, the vertical thrust is zeroed and the Z
integral is reset, contradicting the claim's ground-contact clause which requires
thrust z and the Z integral to be unchanged whenever `ground_contact` is set. -/
theorem claim_c4_counterexample :
    ¬ (((limit_thrust_during_landing true true
          ⟨some (3/10), some (-(1/10)), some (3/5)⟩ ⟨1, 2, 3⟩).1.z = some (3/5)) ∧
       ((limit_thrust_during_landing true true
          ⟨some (3/10), some (-(1/10)), some (3/5)⟩ ⟨1, 2, 3⟩).2.int_z = 3)) := by
  norm_num [limit_thrust_during_landing, resetIntegralXY, resetIntegralZ]

/-- Claim C4 (amended): if `ground_contact` is set and `maybe_landed` is not, thrust
x and y become exactly 0, the XY integral is reset, and thrust z and the Z integral
are unchanged; if `maybe_landed` is set, the whole thrust vector becomes exactly
`(0,0,0)` and both XY and Z integrals are reset. -/
theorem claim_c4_landing_thrust_shaping (gc ml : Bool) (thr : V3) (core : CoreIntegrals) :
    (gc = true → ml = false →
      (limit_thrust_during_landing gc ml thr core).1 = ⟨some 0, some 0, thr.z⟩ ∧
      (limit_thrust_during_landing gc ml thr core).2 = ⟨0, 0, core.int_z⟩) ∧
    (ml = true →
      (limit_thrust_during_landing gc ml thr core).1 = ⟨some 0, some 0, some 0⟩ ∧
      (limit_thrust_during_landing gc ml thr core).2 = ⟨0, 0, 0⟩) := by
  constructor
  · rintro rfl rfl
    simp [limit_thrust_during_landing, resetIntegralXY]
  · rintro rfl
    cases gc <;>
      simp [limit_thrust_during_landing, resetIntegralXY, resetIntegralZ]

/-- Witness for the amended C4 at the S3 scenario (`ground_contact` only,
`thr_sp = (0.3, −0.1, 0.6)`, integrals `(1, 2, 3)`): lateral thrust zeroed, XY
integral reset, vertical thrust and Z integral untouched. -/
theorem claim_c4_witness :
    (true = true) ∧ (false = (false : Bool)) ∧
    ((limit_thrust_during_landing true false
        ⟨some (3/10), some (-(1/10)), some (3/5)⟩ ⟨1, 2, 3⟩).1
        = ⟨some 0, some 0, some (3/5)⟩ ∧
     (limit_thrust_during_landing true false
        ⟨some (3/10), some (-(1/10)), some (3/5)⟩ ⟨1, 2, 3⟩).2 = ⟨0, 0, 3⟩) :=
  ⟨rfl, rfl,
    (claim_c4_landing_thrust_shaping true false
      ⟨some (3/10), some (-(1/10)), some (3/5)⟩ ⟨1, 2, 3⟩).1 rfl rfl⟩

/-- Claim C5: on every invocation of `check_for_smooth_takeoff` with the vehicle
landed and not already in smooth takeoff, smooth takeoff is entered exactly when
`(z_sp finite ∧ z_sp < position.z − min_altitude) ∨ (vz_sp finite ∧
vz_sp < min(−takeoff_speed_param, −0.6))`, with `min_altitude =
min_distance_to_ground + 0.05` when the latter is finite and `0.2` otherwise; on
entry the ramp value is set to `−0.5`. -/
theorem claim_c5_smooth_takeoff_entry (tko_speed : ℚ)
    (pos_z z_sp vz_sp mdg tko0 : F32) (landed ists : Bool)
    (hl : landed = true) (hi : ists = false) :
    ((check_for_smooth_takeoff tko_speed landed ists pos_z z_sp vz_sp mdg tko0).1 =
      ((isFin z_sp &&
          flt z_sp (fsub pos_z (if isFin mdg then fadd mdg (some (1/20)) else some (1/5)))) ||
       (isFin vz_sp && flt vz_sp (some (min (-tko_speed) (-(3/5))))))) ∧
    ((check_for_smooth_takeoff tko_speed landed ists pos_z z_sp vz_sp mdg tko0).1 = true →
      (check_for_smooth_takeoff tko_speed landed ists pos_z z_sp vz_sp mdg tko0).2
        = some (-(1/2))) := by
  subst hl hi
  unfold check_for_smooth_takeoff
  cases hC : ((isFin z_sp &&
      flt z_sp (fsub pos_z (if isFin mdg then fadd mdg (some (1/20)) else some (1/5)))) ||
     (isFin vz_sp && flt vz_sp (some (min (-tko_speed) (-(3/5)))))) <;>
    simp only [Bool.true_and, Bool.not_false, Bool.and_self, if_true, hC, if_false,
      Bool.false_eq_true, reduceIte] <;> simp

/-- Witness for C5: landed, not in takeoff, `z_sp = −2` below
`position.z − 0.2 = −0.2` with no distance-to-ground constraint: smooth takeoff is
entered and the ramp is set to `−0.5`. -/
theorem claim_c5_witness :
    (true = true) ∧ (false = (false : Bool)) ∧
    ((check_for_smooth_takeoff (3/2) true false (some 0) (some (-2)) none none
        (some (-1))).1 = true ∧
     (check_for_smooth_takeoff (3/2) true false (some 0) (some (-2)) none none
        (some (-1))).2 = some (-(1/2))) := by
  have h := claim_c5_smooth_takeoff_entry (3/2) (some 0) (some (-2)) none none
    (some (-1)) true false rfl rfl
  have hc : (check_for_smooth_takeoff (3/2) true false (some 0) (some (-2)) none none
      (some (-1))).1 = true := by
    rw [h.1]
    norm_num [isFin, flt, fsub, fadd]
  exact ⟨rfl, rfl, hc, h.2 hc⟩

/-- Counterexample to C6 as stated: inside an activation epoch
(`in_smooth_takeoff = true`, ramp at `−0.5`), a tick whose setpoint has `z_sp` NaN
and `vz_sp = +1` makes the ramp drop from `−0.5` to `−1`: the ramp decreases from
one tick to the next. -/
theorem claim_c6_counterexample :
    (update_smooth_takeoff (3/2) 3 5 (1/50) true (some (-(1/2))) (some 0) none
        (some 1)).2 = some (-1) ∧ ((-1 : ℚ) < -(1/2)) := by
  constructor
  · norm_num [update_smooth_takeoff, desiredTkoSpeed, isFin, fadd, fmul, fdiv, fneg,
      fminC, flt]
  · norm_num

/-- Claim C6 (amended): a ramp update inside an activation epoch yields
`min(ramp + desired·dt/ramp_time, desired)`; whenever the tick's desired speed is
nonnegative and at least the current ramp value, and `dt ≥ 0`, `ramp_time > 0`, the
ramp does not decrease and does not exceed the desired speed. -/
theorem claim_c6_ramp_monotone (tko_speed takeoff_ramp_time land_alt2 dt t d : ℚ)
    (pos_z z_sp vz_sp : F32)
    (hd : desiredTkoSpeed tko_speed z_sp vz_sp = some d)
    (hdt : 0 ≤ dt) (hT : 0 < takeoff_ramp_time) (hd0 : 0 ≤ d) (htd : t ≤ d) :
    ∃ t2, (update_smooth_takeoff tko_speed takeoff_ramp_time land_alt2 dt true
            (some t) pos_z z_sp vz_sp).2 = some t2 ∧ t ≤ t2 ∧ t2 ≤ d := by
  have hq : 0 ≤ d * dt / takeoff_ramp_time := by positivity
  by_cases hlt : t + d * dt / takeoff_ramp_time < d
  · refine ⟨t + d * dt / takeoff_ramp_time, ?_, by linarith, by linarith⟩
    simp [update_smooth_takeoff, hd, fadd, fmul, fdiv, fminC, flt, hlt]
  · refine ⟨d, ?_, htd, le_refl d⟩
    simp [update_smooth_takeoff, hd, fadd, fmul, fdiv, fminC, flt, hlt]

/-- Witness for the amended C6 (the S1 case): `z_sp` finite so `desired = 1.5`,
ramp at `−0.5`, `dt = 0.02`, ramp time 3: the new ramp lies between `−0.5` and
`1.5`. -/
theorem claim_c6_witness :
    (desiredTkoSpeed (3/2) (some (-2)) none = some (3/2)) ∧
    ((0 : ℚ) ≤ 1/50) ∧ ((0 : ℚ) < 3) ∧ ((0 : ℚ) ≤ 3/2) ∧ ((-(1/2) : ℚ) ≤ 3/2) ∧
    (∃ t2, (update_smooth_takeoff (3/2) 3 5 (1/50) true (some (-(1/2))) (some 0)
        (some (-2)) none).2 = some t2 ∧ -(1/2) ≤ t2 ∧ t2 ≤ 3/2) := by
  refine ⟨rfl, by norm_num, by norm_num, by norm_num, by norm_num, ?_⟩
  exact claim_c6_ramp_monotone (3/2) 3 5 (1/50) (-(1/2)) (3/2) (some 0) (some (-2))
    none rfl (by norm_num) (by norm_num) (by norm_num) (by norm_num)

/-- Counterexample to C9 as stated: a state-validation call whose sample has
timestamp 0 returns early, so the vertical velocity state keeps its previous value
`1` although the raw `vz = 2` is finite. -/
theorem claim_c9_counterexample :
    (check_vehicle_states 1 lpC9 none (fun _ => none) (fun _ => none) (fun _ => none)
        statesC9).vel_z = some 1 ∧
    lpC9.vz = some 2 ∧ ((some (1 : ℚ) : F32) ≠ some 2) := by
  exact ⟨rfl, rfl, by decide⟩

/-- Claim C9 (amended): on every state-validation call with a nonzero sample
timestamp and a finite raw `vz`, the resulting vertical velocity state equals the
raw `vz`; moreover the result never depends on `z_deriv`: the blended value is
always overwritten. -/
theorem claim_c9_vz_overwrite (land_speed : ℚ) (lp : LocalPos) (v : ℚ)
    (vel_sp_z : F32) (dX dY dZ : F32 → F32) (s : PCStates) (d2 : F32)
    (ht : lp.timestamp ≠ 0) (hv : lp.vz = some v) :
    (check_vehicle_states land_speed lp vel_sp_z dX dY dZ s).vel_z = some v ∧
    check_vehicle_states land_speed { lp with z_deriv := d2 } vel_sp_z dX dY dZ s
      = check_vehicle_states land_speed lp vel_sp_z dX dY dZ s := by
  constructor
  · simp [check_vehicle_states, ht, hv, isFin]
  · rfl

/-- Witness for the amended C9: a received sample (`timestamp = 1`) with raw
`vz = 2` and `z_deriv = 9` yields vertical velocity state `2`, and replacing
`z_deriv` by `3` changes nothing. -/
theorem claim_c9_witness :
    (lpC9w.timestamp ≠ 0) ∧ (lpC9w.vz = some 2) ∧
    ((check_vehicle_states 1 lpC9w none (fun _ => none) (fun _ => none)
        (fun _ => none) statesNone).vel_z = some 2 ∧
     check_vehicle_states 1 { lpC9w with z_deriv := some 3 } none (fun _ => none)
        (fun _ => none) (fun _ => none) statesNone
       = check_vehicle_states 1 lpC9w none (fun _ => none) (fun _ => none)
          (fun _ => none) statesNone) :=
  ⟨by decide, rfl,
    claim_c9_vz_overwrite 1 lpC9w 2 none (fun _ => none) (fun _ => none)
      (fun _ => none) statesNone (some 3) (by decide) rfl⟩

/-- Claim C2: on every tick with `control_mode.flag_armed` false, the tick switches
the flight task to `None` and resets the arm hysteresis to false, so after that tick
no flight task is active and no attitude setpoint is published. -/
theorem claim_c2_disarm_idle (p : Params) (s : CtlState) (i : TickInput)
    (h : i.cm.flag_armed = false) :
    (tick p s i).st.cur = FlightTaskIndex.None ∧
    (tick p s i).st.arm_hyst.state = false ∧
    (tick p s i).taskActive = false ∧
    (tick p s i).published = false := by
  have hr := hyst_reset_state s.arm_hyst i.now
  simp [tick, tickBranch, tickIdle, publishGuard, h, hr]

/-- Witness for C2: disarmed input with a previously active task and true hysteresis;
the tick forces task `None`, hysteresis false, no activity, no publication. -/
theorem claim_c2_witness :
    (iC2.cm.flag_armed = false) ∧
    ((tick pDefault sC2 iC2).st.cur = FlightTaskIndex.None ∧
     (tick pDefault sC2 iC2).st.arm_hyst.state = false ∧
     (tick pDefault sC2 iC2).taskActive = false ∧
     (tick pDefault sC2 iC2).published = false) :=
  ⟨rfl, claim_c2_disarm_idle pDefault sC2 iC2 rfl⟩

/-- Claim C7 (code bug evaluation): with a task active, a failing task update, and a
finite vertical velocity state, the synthesized failsafe setpoint has NaN positions
and lateral velocities, `vz = land_speed`, lateral thrust zero, NaN vertical thrust,
and the PID core is still executed — but `yaw` and `yawspeed` retain the
indeterminate contents of the default-initialized stack variable (here `5` and `7`)
instead of being NaN as the claim states. -/
theorem claim_c7_uninitialized_failsafe :
    (tick pDefault sC7 iC7).taskActive = true ∧
    iC7.taskUpdateOk = false ∧
    isFin sC7.states.vel_z = true ∧
    (tick pDefault sC7 iC7).taskSp.x = none ∧
    (tick pDefault sC7 iC7).taskSp.y = none ∧
    (tick pDefault sC7 iC7).taskSp.z = none ∧
    (tick pDefault sC7 iC7).taskSp.vx = none ∧
    (tick pDefault sC7 iC7).taskSp.vy = none ∧
    (tick pDefault sC7 iC7).taskSp.vz = some (1/2) ∧
    (tick pDefault sC7 iC7).taskSp.thrust = ⟨some 0, some 0, none⟩ ∧
    (tick pDefault sC7 iC7).taskSp.yaw = some 5 ∧
    (tick pDefault sC7 iC7).taskSp.yawspeed = some 7 ∧
    (tick pDefault sC7 iC7).pidInvoked = true :=
  ⟨rfl, rfl, rfl, rfl, rfl, rfl, rfl, rfl, rfl, rfl, rfl, rfl, rfl⟩

/-- Counterexample to C8 as stated: hysteresis state true and the offboard condition
absent, yet no attitude setpoint is published, because no `vehicle_status` message
was ever received and hence the attitude-setpoint topic id is still unset. -/
theorem claim_c8_counterexample :
    ¬ (((tick pDefault sC8 inputBase).published = true) ↔
       ((tick pDefault sC8 inputBase).hystState = true ∧
        ¬(inputBase.cm.flag_control_offboard_enabled = true ∧
          inputBase.cm.flag_control_position_enabled = false ∧
          inputBase.cm.flag_control_velocity_enabled = false ∧
          inputBase.cm.flag_control_acceleration_enabled = false))) := by
  intro hiff
  have h2 : (tick pDefault sC8 inputBase).hystState = true := rfl
  have h1 : (tick pDefault sC8 inputBase).published = false := rfl
  have h3 := hiff.mpr ⟨h2, fun hc => by
    have hoff : inputBase.cm.flag_control_offboard_enabled = true := hc.1
    simp [inputBase, cmArmedOnly] at hoff⟩
  rw [h1] at h3
  exact Bool.false_ne_true h3

/-- Claim C8 (amended): on every tick, an attitude setpoint is published if and only
if the arm hysteresis state is true, it is not the case that offboard control is
enabled while position, velocity and acceleration control are all disabled, and the
attitude-setpoint topic handle is available (already advertised, or a
`vehicle_status` message has determined the topic id). -/
theorem claim_c8_publish_guard (p : Params) (s : CtlState) (i : TickInput) :
    (tick p s i).published =
      ((tick p s i).hystState &&
        !(i.cm.flag_control_offboard_enabled &&
          !(i.cm.flag_control_position_enabled || i.cm.flag_control_velocity_enabled ||
            i.cm.flag_control_acceleration_enabled)) &&
        (s.attAdvertised || (s.attIdSet || i.statusUpdated))) := by
  simp only [tick, tickBranch]
  split <;> split <;> rfl

/-- When the smooth-takeoff gate of the active arm is off — arm hysteresis false
after its update, or a non-finite vertical position or velocity state — the takeoff
state machine and the setpoint stage are untouched. -/
theorem tickActive_gate_off (p : Params) (s : CtlState) (i : TickInput)
    (attIdSet : Bool) (cur : FlightTaskIndex) (hyst0 : Hysteresis)
    (hg : (tickActive p s i attIdSet cur hyst0).hystState = false ∨
          (tickActive p s i attIdSet cur hyst0).st.states.pos_z = none ∨
          (tickActive p s i attIdSet cur hyst0).st.states.vel_z = none) :
    (tickActive p s i attIdSet cur hyst0).st.in_smooth_takeoff = s.in_smooth_takeoff ∧
    (tickActive p s i attIdSet cur hyst0).st.takeoff_speed = s.takeoff_speed ∧
    (tickActive p s i attIdSet cur hyst0).spAfterTakeoff
        = (tickActive p s i attIdSet cur hyst0).taskSp ∧
    (tickActive p s i attIdSet cur hyst0).consAfterTakeoff = i.taskConstraints := by
  rcases hg with hg | hg | hg <;>
    simp only [tickActive] at hg ⊢ <;>
    simp_all [isFin]

/-- Claim C10: if the vehicle is in smooth takeoff and on some tick the arm
hysteresis is false, or the vertical position or vertical velocity state is
non-finite, then on that tick the ramp is not updated, the exit condition is not
evaluated, none of the takeoff overrides is applied to the setpoint or the
constraints, and `_in_smooth_takeoff` remains true. -/
theorem claim_c10_takeoff_gate (p : Params) (s : CtlState) (i : TickInput)
    (hin : s.in_smooth_takeoff = true)
    (hgate : (tick p s i).hystState = false ∨ (tick p s i).st.states.pos_z = none ∨
             (tick p s i).st.states.vel_z = none) :
    (tick p s i).st.in_smooth_takeoff = true ∧
    (tick p s i).st.takeoff_speed = s.takeoff_speed ∧
    (tick p s i).spAfterTakeoff = (tick p s i).taskSp ∧
    (tick p s i).consAfterTakeoff = i.taskConstraints := by
  simp only [tick, tickBranch] at hgate ⊢
  revert hgate
  split <;> split <;> intro hgate
  · simp [tickIdle, hin]
  · exact ⟨((tickActive_gate_off p s i _ _ _ hgate).1).trans hin,
      (tickActive_gate_off p s i _ _ _ hgate).2⟩
  · simp [tickIdle, hin]
  · exact ⟨((tickActive_gate_off p s i _ _ _ hgate).1).trans hin,
      (tickActive_gate_off p s i _ _ _ hgate).2⟩

/-- Witness for C10: mid smooth takeoff with the arm hysteresis still debouncing
(state false); the tick leaves the takeoff state machine and the setpoint untouched. -/
theorem claim_c10_witness :
    (sC10.in_smooth_takeoff = true) ∧
    ((tick pDefault sC10 inputBase).hystState = false) ∧
    ((tick pDefault sC10 inputBase).st.in_smooth_takeoff = true ∧
     (tick pDefault sC10 inputBase).st.takeoff_speed = sC10.takeoff_speed ∧
     (tick pDefault sC10 inputBase).spAfterTakeoff = (tick pDefault sC10 inputBase).taskSp ∧
     (tick pDefault sC10 inputBase).consAfterTakeoff = inputBase.taskConstraints) :=
  ⟨rfl, rfl, claim_c10_takeoff_gate pDefault sC10 inputBase rfl (Or.inl rfl)⟩

end MCPos
